import Mathlib

/-!
Verification development for the `sdeint` stochastic differential equation
integration library (`sdeint/integrate.py`).

The Python module is shallowly embedded here:

* real (floating point) scalars are modelled as rationals `ℚ`;
* numpy 1-D arrays are `List ℚ`, 2-D arrays are `List (List ℚ)` (a list of
  rows) and 3-D arrays are `List (List (List ℚ))`;
* raised exceptions are modelled with `Except PyErr`;
* the external collaborators (the Wiener-increment generator `deltaW`, the
  repeated-integral providers `Ikpw`/`Jkpw`, `scipy.optimize.fsolve`,
  `numpy.linalg.norm` and `numpy.sqrt`) are taken as explicit function
  parameters, since `sdeint/wiener.py`, scipy and numpy are outside the
  integrator core being verified.

Each definition carries a comment naming the Python function and lines it
embeds.
-/

/-- Scalars: real numbers of the Python code modelled as rationals. -/
abbrev Vec := List ℚ

/-- A 2-D numpy array, stored as a list of rows. -/
abbrev Mat := List (List ℚ)

/-- A 3-D numpy array. -/
abbrev Arr3 := List (List (List ℚ))

/-- Elementwise vector addition (numpy `+` on equal-shape 1-D arrays). -/
def vadd (a b : Vec) : Vec := List.zipWith (· + ·) a b

/-- Elementwise vector subtraction. -/
def vsub (a b : Vec) : Vec := List.zipWith (· - ·) a b

/-- Elementwise vector product (numpy `*` on equal-shape 1-D arrays). -/
def vmul (a b : Vec) : Vec := List.zipWith (· * ·) a b

/-- Scalar times vector (numpy `c * v` / `v * c`). -/
def smulV (c : ℚ) (a : Vec) : Vec := a.map (fun x => c * x)

/-- Vector divided componentwise by a scalar (numpy `v / c`). -/
def vdivs (a : Vec) (c : ℚ) : Vec := a.map (fun x => x / c)

/-- Dot product of two vectors. -/
def dotV (a b : Vec) : ℚ := (List.zipWith (· * ·) a b).sum

/-- Matrix–vector product `M.dot(v)` for a `(d,m)` array and an `(m,)` array. -/
def matVec (M : Mat) (v : Vec) : Vec := M.map (fun row => dotV row v)

/-- Column `k` of a 2-D array: `M[:,k]`. -/
def col (M : Mat) (k : ℕ) : Vec := M.map (fun r => r.getD k 0)

/-- Elementwise matrix addition. -/
def matAdd (A B : Mat) : Mat := List.zipWith vadd A B

/-- Scalar times matrix. -/
def smulM (c : ℚ) (A : Mat) : Mat := A.map (smulV c)

/-- Matrix divided by a scalar. -/
def matDivS (A : Mat) (c : ℚ) : Mat := A.map (fun r => vdivs r c)

/-- Matrix product `A.dot(B)` for `(d,m)` and `(m,p)` arrays. -/
def matMul (A B : Mat) : Mat :=
  A.map (fun r => (List.range (B.headD []).length).map (fun j => dotV r (col B j)))

/-- Select the entries of `v` at the positions in `idx` (numpy fancy indexing
`v[idx]`). -/
def selIdx (v : Vec) (idx : List ℕ) : Vec := idx.map (fun i => v.getD i 0)

/-- Select the columns of `M` at the positions in `idx` (numpy `M[:, idx]`). -/
def selCols (M : Mat) (idx : List ℕ) : Mat := M.map (fun r => idx.map (fun i => r.getD i 0))

/-- Build a `(d, |cols|)` matrix whose `k`-th column is `cols[k]`; models the
`Gn = np.zeros((d, m)); Gn[:,k] = G[k](Yn, tn)` assignments of
`_Roessler2010_SRK2` (integrate.py lines 726, 738-739). -/
def matFromCols (d : ℕ) (cols : List Vec) : Mat :=
  (List.range d).map (fun i => cols.map (fun c => c.getD i 0))

/-- The `.shape` of a (rectangular) 2-D numpy array in this list model. -/
def shape2 (w : Mat) : ℕ × ℕ := (w.length, (w.headD []).length)

/-- The `.shape` of a (rectangular) 3-D numpy array in this list model. -/
def shape3 (w : Arr3) : ℕ × ℕ × ℕ :=
  (w.length, (w.headD []).length, ((w.headD []).headD []).length)

/-- `np.diff(tspan)`: consecutive differences. -/
def npDiff (l : List ℚ) : List ℚ := List.zipWith (· - ·) (l.drop 1) l

/-- Python exceptions raised (or propagated) by `sdeint/integrate.py`.
The shape-mismatch variants carry the data that the corresponding
`SDEValueError` message interpolates (the expected shape). -/
inductive PyErr where
  /-- `min()` / `max()` of an empty sequence (`ValueError`), for `len(tspan) < 2`. -/
  | valueErrorEmpty : PyErr
  /-- `SDEValueError 'Currently time steps must be equally spaced.'` -/
  | sdeValueNonuniform : PyErr
  /-- `SDEValueError 'y0 and f have incompatible shapes.'` -/
  | sdeValueShapeFG : PyErr
  /-- `SDEValueError` for a malformed `G` (message interpolates `d`). -/
  | sdeValueG (d : ℕ) : PyErr
  /-- `SDEValueError` for a `dW` of wrong shape; carries the expected shape
  `(len(tspan)-1, m)` that the message names. -/
  | sdeValueDW (rows m : ℕ) : PyErr
  /-- `SDEValueError` for an `I`/`J` of wrong shape; carries the expected shape
  `(len(tspan)-1, m, m)` that the message names. -/
  | sdeValueIJ (rows m : ℕ) : PyErr
  /-- `SDEValueError` for an `H` whose first axis does not match `d`. -/
  | sdeValueHFirst (d : ℕ) : PyErr
  /-- `SDEValueError` for an `H` whose last two axes differ. -/
  | sdeValueHSquare (p q : ℕ) : PyErr
  /-- `SDEValueError` for an `H` whose last two axes are not `m`. -/
  | sdeValueHNotM (d : ℕ) : PyErr
  /-- `SDEValueError 'G should be a function returning a d x m matrix.'`
  raised by `stratKP2iS`. -/
  | sdeValueKPnotMatrix : PyErr
  /-- `SDEValueError "stratKP2iS() can't yet handle complex variables."` -/
  | sdeValueKPcomplex : PyErr
  /-- `TypeError`, e.g. from `i not in None` in `itoQuasiImplicitEuler`. -/
  | typeError : PyErr
  /-- `RuntimeError` raised by `stratKP2iS` when `fsolve` fails to converge. -/
  | runtimeError : PyErr
deriving DecidableEq

/-- `min(l)` — raises `ValueError` on an empty sequence. -/
def npMinE (l : List ℚ) : Except PyErr ℚ :=
  match l with
  | [] => .error .valueErrorEmpty
  | x :: xs => .ok (xs.foldl min x)

/-- `max(l)` — raises `ValueError` on an empty sequence. -/
def npMaxE (l : List ℚ) : Except PyErr ℚ :=
  match l with
  | [] => .error .valueErrorEmpty
  | x :: xs => .ok (xs.foldl max x)

/-- `np.isclose(a, b)` with the numpy defaults `rtol = 1e-5`, `atol = 1e-8`:
`|a - b| <= atol + rtol * |b|`. -/
def npIsClose (a b : ℚ) : Bool := |a - b| ≤ 1 / 100000000 + (1 / 100000) * |b|

/-- The numpy dtype of an array, as far as the claims need it. -/
inductive DType where
  | float64 : DType
  | float32 : DType
  | int64 : DType
  | complex128 : DType
deriving DecidableEq

/-- A 1-D numpy array together with its dtype (the dtype matters for the
scalar-promotion and complex-state checks; the stored values are the
rational model of the entries). -/
structure NpVec where
  data : Vec
  dtype : DType

/-- The diffusion coefficient argument `G`: either a single callable returning
a `(d, m)` matrix, or a list of `m` column functions each returning a `(d,)`
vector (integrate.py lines 117-135). -/
inductive GFun where
  | GMatrix (g : Vec → ℚ → Mat) : GFun
  | GColumns (gs : List (Vec → ℚ → Vec)) : GFun

/-- Default column function used with `List.getD` (never selected when the
index is in range). -/
def gZero : Vec → ℚ → Vec := fun _ _ => []

/-- `np.iscomplexobj(v)`: whether the array's dtype is a complex type. -/
def iscomplexobj (v : NpVec) : Bool :=
  match v.dtype with
  | .complex128 => true
  | _ => false

/-- Result dictionary `{"trajectory": y}`. -/
structure Traj1 where
  trajectory : List Vec
deriving DecidableEq

/-- Result dictionary `{"trajectory": y, "norms": norms}`. -/
structure Traj2 where
  trajectory : List Vec
  norms : List ℚ
deriving DecidableEq

/-- Whether an `Except` computation raised. -/
def isErr {ε α : Type} : Except ε α → Bool
  | .error _ => true
  | .ok _ => false

/-- The saving index `int((n-1)/downsample) + 1` used by the downsampling
integrators (integrate.py lines 240, 306, 326, 408, 412, 463, 758).  Python
evaluates `(n-1)/downsample` in float arithmetic (exact for these magnitudes)
and `int()` truncates toward zero, which is `Int.tdiv`. -/
def recIdxZ (downsample n : ℕ) : ℤ := Int.tdiv ((n : ℤ) - 1) (downsample : ℤ) + 1

/-- The saving index as a natural number.  For `downsample ≥ 1` the value of
`recIdxZ` is never negative (at `n = 0` it is `0` when `downsample = 1` and
`1` otherwise), so `toNat` is faithful. -/
def recIdxN (downsample n : ℕ) : ℕ := (recIdxZ downsample n).toNat

/-- A Python number that can be passed as a scalar `y0`
(`numbers.Number`), as far as the claims need: an `int`
(`numbers.Integral`), a `float`, or a `numpy.float32`. -/
inductive PyScalar where
  | pyInt (z : ℤ) : PyScalar
  | pyFloat (q : ℚ) : PyScalar
  | pyFloat32 (q : ℚ) : PyScalar
deriving DecidableEq

/-- `isinstance(y0, numbers.Integral)`. -/
def PyScalar.isIntegral : PyScalar → Bool
  | .pyInt _ => true
  | _ => false

/-- The dtype `np.array([y0], dtype=type(y0))` would get: `type(y0)` as an
array element type. -/
def PyScalar.pytype : PyScalar → DType
  | .pyInt _ => .int64
  | .pyFloat _ => .float64
  | .pyFloat32 _ => .float32

/-- The numeric value of the scalar in the rational model. -/
def PyScalar.val : PyScalar → ℚ
  | .pyInt z => (z : ℚ)
  | .pyFloat q => q
  | .pyFloat32 q => q

/-- A Python function together with its `__name__` attribute. -/
structure NamedFn (α : Type) where
  name : String
  fn : α

/-- `make_vector_fn` of `_check_args` (integrate.py lines 95-99): wraps a
scalar-returning drift `f(y, t)` into `lambda y, t: np.array([f(y[0], t)])`,
copying `__name__`. -/
def make_vector_fn (f : NamedFn (ℚ → ℚ → PyScalar)) : NamedFn (Vec → ℚ → Vec) :=
  ⟨f.name, fun y t => [(f.fn (y.getD 0 0) t).val]⟩

/-- `make_matrix_fn` of `_check_args` (integrate.py lines 100-104): wraps a
scalar-returning diffusion `G(y, t)` into `lambda y, t: np.array([[G(y[0], t)]])`,
copying `__name__`. -/
def make_matrix_fn (g : NamedFn (ℚ → ℚ → PyScalar)) : NamedFn (Vec → ℚ → Mat) :=
  ⟨g.name, fun y t => [[(g.fn (y.getD 0 0) t).val]]⟩

/-- The scalar-promotion block of `_check_args` (integrate.py lines 88-108)
for a scalar problem: `y0` is a plain number and `f`, `G` return numbers, so
`y0` becomes `np.array([y0], dtype=numtype)` with
`numtype = np.float64 if isinstance(y0, numbers.Integral) else type(y0)`,
and `f`, `G` are wrapped by `make_vector_fn` / `make_matrix_fn`. -/
def scalarPromote (f g : NamedFn (ℚ → ℚ → PyScalar)) (y0 : PyScalar) :
    NpVec × NamedFn (Vec → ℚ → Vec) × NamedFn (Vec → ℚ → Mat) :=
  let numtype := if y0.isIntegral then DType.float64 else y0.pytype
  (⟨[y0.val], numtype⟩, make_vector_fn f, make_matrix_fn g)

/-- The time-grid uniformity check of `_check_args` (integrate.py line 85):
`if not np.isclose(min(np.diff(tspan)), max(np.diff(tspan))): raise`. -/
def checkGrid (tspan : List ℚ) : Except PyErr Unit :=
  match npMinE (npDiff tspan), npMaxE (npDiff tspan) with
  | .ok dmin, .ok dmax =>
      if npIsClose dmin dmax then .ok () else .error .sdeValueNonuniform
  | .error e, _ => .error e
  | _, .error e => .error e

/-- The `m`-derivation and `G`-validation block of `_check_args`
(integrate.py lines 117-135).  For a single matrix function, `G(y0, t0)` must
be 2-D (automatic in the `Mat` model) with first dimension `d` and `m` is its
second dimension; for a list of column functions each entry must be callable
(automatic in this model) and return a `(d,)` array, and `m` is the list
length. -/
def deriveM (G : GFun) (y0v : Vec) (t0 : ℚ) (d : ℕ) : Except PyErr ℕ :=
  match G with
  | .GMatrix g =>
      let Gtest := g y0v t0
      if Gtest.length ≠ d then .error (.sdeValueG d)
      else .ok (shape2 Gtest).2
  | .GColumns gs =>
      let m := gs.length
      if (List.range m).all (fun k => ((gs.getD k gZero) y0v t0).length == d)
      then .ok m else .error (.sdeValueG d)

/-- The optional-`dW` shape check of `_check_args` (integrate.py lines
139-141): a supplied `dW` must have shape `(len(tspan) - 1, m)`. -/
def checkDW (dW : Option Mat) (tspan : List ℚ) (m : ℕ) : Except PyErr Unit :=
  match dW with
  | none => .ok ()
  | some w =>
      if shape2 w ≠ (tspan.length - 1, m) then .error (.sdeValueDW (tspan.length - 1) m)
      else .ok ()

/-- The optional-`IJ` shape check of `_check_args` (integrate.py lines
146-148): a supplied `I`/`J` must have shape `(len(tspan) - 1, m, m)`. -/
def checkIJ (IJ : Option Arr3) (tspan : List ℚ) (m : ℕ) : Except PyErr Unit :=
  match IJ with
  | none => .ok ()
  | some a =>
      if shape3 a ≠ (tspan.length - 1, m, m) then .error (.sdeValueIJ (tspan.length - 1) m)
      else .ok ()

/-- The optional-`H` check of `_check_args` (integrate.py lines 149-163):
`H(y0, t0)` must be a `(d, m, m)` tensor.  `H` is modelled as an (always
callable) function; the `NotImplementedError` branch for non-callable `H` is
therefore not reachable in the model. -/
def checkH (H : Option (Vec → ℚ → Arr3)) (y0v : Vec) (t0 : ℚ) (d m : ℕ) :
    Except PyErr Unit :=
  match H with
  | none => .ok ()
  | some Hf =>
      let s := shape3 (Hf y0v t0)
      if s.1 ≠ d then .error (.sdeValueHFirst d)
      else if s.2.1 ≠ s.2.2 then .error (.sdeValueHSquare s.2.1 s.2.2)
      else if s.2.1 ≠ m then .error (.sdeValueHNotM d)
      else .ok ()

/-- `_check_args` (integrate.py lines 81-164) for an array-valued `y0`
(a scalar `y0` goes through `scalarPromote` first and reaches this function
as a length-1 array; the wrapped `f`, `G` are then genuine vector/matrix
functions).  Returns `(d, m, G)`; `f`, `y0`, `tspan`, `dW`, `IJ` are returned
unchanged by the Python code and are therefore not repeated in the result. -/
def _check_args (f : Vec → ℚ → Vec) (G : GFun) (y0 : NpVec) (tspan : List ℚ)
    (dW : Option Mat) (IJ : Option Arr3) (H : Option (Vec → ℚ → Arr3)) :
    Except PyErr (ℕ × ℕ × GFun) :=
  match checkGrid tspan with
  | .error e => .error e
  | .ok _ =>
    let d := y0.data.length
    let t0 := tspan.headD 0
    if (f y0.data t0).length ≠ d then .error .sdeValueShapeFG
    else
      match deriveM G y0.data t0 d with
      | .error e => .error e
      | .ok m =>
        match checkDW dW tspan m with
        | .error e => .error e
        | .ok _ =>
          match checkIJ IJ tspan m with
          | .error e => .error e
          | .ok _ =>
            match checkH H y0.data t0 d m with
            | .error e => .error e
            | .ok _ => .ok (d, m, G)

/-- The Euler–Maruyama one-step recurrence
`y_next = yn + f(yn, tn)*h + G(yn, tn).dot(dWn)` (integrate.py line 236). -/
def euler_maruyama_step (f : Vec → ℚ → Vec) (G : Vec → ℚ → Mat) (h tn : ℚ)
    (dWn yn : Vec) : Vec :=
  vadd (vadd yn (smulV h (f yn tn))) (matVec (G yn tn) dWn)

/-- `itoEuler` (integrate.py lines 187-241).  `nrm` stands for
`numpy.linalg.norm` and `deltaW` for the external Wiener-increment generator
(used only when `dW` is not supplied). -/
def itoEulerE (f : Vec → ℚ → Vec) (G : Vec → ℚ → Mat) (y0 : NpVec)
    (tspan : List ℚ) (dW : Option Mat) (normalized : Bool) (downsample : ℕ)
    (nrm : Vec → ℚ) (deltaW : ℕ → ℕ → ℚ → Mat) : Except PyErr Traj1 :=
  match _check_args f (.GMatrix G) y0 tspan dW none none with
  | .error e => .error e
  | .ok (d, m, _) =>
    let N := tspan.length
    let Nrec := (N - 1) / downsample + 1
    let h := (tspan.getD (N - 1) 0 - tspan.getD 0 0) / ((N : ℚ) - 1)
    let dW' := match dW with
      | some w => w
      | none => deltaW (N - 1) m h
    -- y = np.zeros((N_record, d)); y[0] = y0; y_next = y[0]
    let init : List Vec := (List.replicate Nrec (List.replicate d (0 : ℚ))).set 0 y0.data
    let out := (List.range (N - 1)).foldl
      (fun (st : List Vec × Vec) n =>
        let tn := tspan.getD n 0
        let yn := st.2
        let dWn := dW'.getD n []
        let y1 := euler_maruyama_step f G h tn dWn yn
        let y2 := if normalized then vdivs y1 (nrm y1) else y1
        (if n % downsample = 0 then st.1.set (recIdxN downsample n) y2 else st.1, y2))
      (init, y0.data)
    .ok ⟨out.1⟩

/-- The `implicit_type` mode flag of `itoImplicitEuler` (integrate.py lines
283-285); the module asserts it is one of these three strings, which the
enumeration makes automatic. -/
inductive ImplicitType where
  | implicit : ImplicitType
  | semi_implicit_drift : ImplicitType
  | semi_implicit_diffusion : ImplicitType
deriving DecidableEq

/-- The inner `implicit_step(yn, y_next, tn, dWn)` of `itoImplicitEuler`
(integrate.py lines 296-309).  It computes the mode-dependent update from
`(yn, y_next)`, always records `la.norm(y_next)` into the `norms` array at the
saving index when `n % downsample == 0`, and divides by that norm when
`normalized`.  The `norms` array is threaded explicitly (in Python it is a
closure variable). -/
def implicit_step (ity : ImplicitType) (f : Vec → ℚ → Vec) (G : Vec → ℚ → Mat)
    (h : ℚ) (normalized : Bool) (nrm : Vec → ℚ) (downsample n : ℕ)
    (tn : ℚ) (dWn : Vec) (yn ynext : Vec) (norms : List ℚ) : Vec × List ℚ :=
  let y1 := match ity with
    | .implicit => vadd (vadd yn (smulV h (f ynext tn))) (matVec (G ynext tn) dWn)
    | .semi_implicit_drift => vadd (vadd yn (smulV h (f ynext tn))) (matVec (G yn tn) dWn)
    | .semi_implicit_diffusion => vadd (vadd yn (smulV h (f yn tn))) (matVec (G ynext tn) dWn)
  let norm_next := nrm y1
  let norms' := if n % downsample = 0 then norms.set (recIdxN downsample n) norm_next else norms
  (if normalized then vdivs y1 norm_next else y1, norms')

/-- One time step of `itoImplicitEuler` (integrate.py lines 318-323): the
initial approximation `implicit_step(yn, yn, tn, dWn)` followed by the
`for _ in range(2)` loop of two further `implicit_step` applications. -/
def ieTriple (ity : ImplicitType) (f : Vec → ℚ → Vec) (G : Vec → ℚ → Mat)
    (h : ℚ) (normalized : Bool) (nrm : Vec → ℚ) (downsample n : ℕ)
    (tn : ℚ) (dWn : Vec) (yn : Vec) (norms : List ℚ) : Vec × List ℚ :=
  let s1 := implicit_step ity f G h normalized nrm downsample n tn dWn yn yn norms
  let s2 := implicit_step ity f G h normalized nrm downsample n tn dWn yn s1.1 s1.2
  implicit_step ity f G h normalized nrm downsample n tn dWn yn s2.1 s2.2

/-- `itoImplicitEuler` (integrate.py lines 243-327). -/
def itoImplicitEulerE (f : Vec → ℚ → Vec) (G : Vec → ℚ → Mat) (y0 : NpVec)
    (tspan : List ℚ) (dW : Option Mat) (normalized : Bool) (downsample : ℕ)
    (ity : ImplicitType) (nrm : Vec → ℚ) (deltaW : ℕ → ℕ → ℚ → Mat) :
    Except PyErr Traj2 :=
  match _check_args f (.GMatrix G) y0 tspan dW none none with
  | .error e => .error e
  | .ok (d, m, _) =>
    let N := tspan.length
    let Nrec := (N - 1) / downsample + 1
    let h := (tspan.getD (N - 1) 0 - tspan.getD 0 0) / ((N : ℚ) - 1)
    let dW' := match dW with
      | some w => w
      | none => deltaW (N - 1) m h
    let init : List Vec := (List.replicate Nrec (List.replicate d (0 : ℚ))).set 0 y0.data
    let norms0 : List ℚ := List.replicate Nrec (0 : ℚ)
    let out := (List.range (N - 1)).foldl
      (fun (st : List Vec × List ℚ × Vec) n =>
        let tn := tspan.getD n 0
        let yn := st.2.2
        let dWn := dW'.getD n []
        let s := ieTriple ity f G h normalized nrm downsample n tn dWn yn st.2.1
        (if n % downsample = 0 then st.1.set (recIdxN downsample n) s.1 else st.1, s.2, s.1))
      (init, norms0, y0.data)
    .ok ⟨out.1, out.2.1⟩

/-- `itoQuasiImplicitEuler` (integrate.py lines 330-413).  Python computes
`explicit_ports = [i for i in range(m) if i not in implicit_ports]` *before*
the `if implicit_ports is None` default, so the membership test `i not in None`
raises `TypeError` whenever the argument is omitted; the subsequent
`implicit_ports = []` assignment is unreachable in that case. -/
def itoQuasiImplicitEulerE (f : Vec → ℚ → Vec) (G : Vec → ℚ → Mat) (y0 : NpVec)
    (tspan : List ℚ) (dW : Option Mat) (normalized : Bool) (downsample : ℕ)
    (implicit_ports : Option (List ℕ)) (nrm : Vec → ℚ)
    (deltaW : ℕ → ℕ → ℚ → Mat) : Except PyErr Traj2 :=
  match _check_args f (.GMatrix G) y0 tspan dW none none with
  | .error e => .error e
  | .ok (d, m, _) =>
    match implicit_ports with
    | none => .error .typeError
    | some ports =>
      let explicit_ports := (List.range m).filter (fun i => !(ports.contains i))
      let N := tspan.length
      let Nrec := (N - 1) / downsample + 1
      let h := (tspan.getD (N - 1) 0 - tspan.getD 0 0) / ((N : ℚ) - 1)
      let dW' := match dW with
        | some w => w
        | none => deltaW (N - 1) m h
      let init : List Vec := (List.replicate Nrec (List.replicate d (0 : ℚ))).set 0 y0.data
      let norms0 : List ℚ := List.replicate Nrec (0 : ℚ)
      let out := (List.range (N - 1)).foldl
        (fun (st : List Vec × List ℚ × Vec) n =>
          let tn := tspan.getD n 0
          let yn := st.2.2
          let dWn := dW'.getD n []
          let fn := f yn tn
          let Gn := G yn tn
          let Ge := selCols Gn explicit_ports
          let Gi := selCols Gn ports
          let dWe := selIdx dWn explicit_ports
          let dWi := selIdx dWn ports
          let GedWn := matVec Ge dWe
          let GidWn := matVec Gi dWi
          -- explicit approximation neglecting implicit noise, then trial state
          let y_explicit_noise := vadd (vadd yn (smulV h fn)) GedWn
          let y_tilde0 := vadd y_explicit_noise GidWn
          let y_tilde := if normalized then vdivs y_tilde0 (nrm y_tilde0) else y_tilde0
          -- one-shot implicit correction on the selected noise terms
          let y_next := vadd y_explicit_noise (matVec (selCols (G y_tilde (tn + h)) ports) dWi)
          let norm_next := nrm y_next
          let norms' := if n % downsample = 0 then st.2.1.set (recIdxN downsample n) norm_next else st.2.1
          let y_next' := if normalized then vdivs y_next norm_next else y_next
          (if n % downsample = 0 then st.1.set (recIdxN downsample n) y_next' else st.1,
           norms', y_next'))
        (init, norms0, y0.data)
      .ok ⟨out.1, out.2.1⟩

/-- `np.dot(Hn.reshape(d, m**2), Iij.ravel())` of `itoMilstein`
(integrate.py line 459): entry `i` is `sum_{j,k} Hn[i][j][k] * Iij[j][k]`. -/
def Hdot (Hn : Arr3) (Iij : Mat) : Vec :=
  Hn.map (fun Hi => (List.zipWith dotV Hi Iij).sum)

/-- `itoMilstein` (integrate.py lines 415-464).  `Imethod` stands for the
external repeated-integral provider (`Ikpw`/`Iwik`), used only when `I` is not
supplied. -/
def itoMilsteinE (f : Vec → ℚ → Vec) (G : Vec → ℚ → Mat) (H : Vec → ℚ → Arr3)
    (y0 : NpVec) (tspan : List ℚ) (Imethod : Mat → ℚ → Mat × Arr3)
    (dW : Option Mat) (I : Option Arr3) (normalized : Bool) (downsample : ℕ)
    (nrm : Vec → ℚ) (deltaW : ℕ → ℕ → ℚ → Mat) : Except PyErr Traj1 :=
  match _check_args f (.GMatrix G) y0 tspan dW I (some H) with
  | .error e => .error e
  | .ok (d, m, _) =>
    let N := tspan.length
    let Nrec := (N - 1) / downsample + 1
    let h := (tspan.getD (N - 1) 0 - tspan.getD 0 0) / ((N : ℚ) - 1)
    let dW' := match dW with
      | some w => w
      | none => deltaW (N - 1) m h
    let I' := match I with
      | some a => a
      | none => (Imethod dW' h).2
    let init : List Vec := (List.replicate Nrec (List.replicate d (0 : ℚ))).set 0 y0.data
    let out := (List.range (N - 1)).foldl
      (fun (st : List Vec × Vec) n =>
        let tn := tspan.getD n 0
        let yn := st.2
        let dWn := dW'.getD n []
        let Iij := I'.getD n []
        let fn := f yn tn
        let Gn := G yn tn
        let Hn := H yn tn
        let y1 := vadd (vadd (vadd yn (smulV h fn)) (matVec Gn dWn)) (Hdot Hn Iij)
        let y2 := if normalized then vdivs y1 (nrm y1) else y1
        (if n % downsample = 0 then st.1.set (recIdxN downsample n) y2 else st.1, y2))
      (init, y0.data)
    .ok ⟨out.1⟩

/-- `numItoMilstein` (integrate.py lines 466-484): validates the arguments
itself and then delegates to `itoMilstein` with the numerically generated
correction tensor.  `gen_H_numerical` uses complex-step differentiation of
`G`, an operation on genuine floating/complex numbers; its result is modelled
as the explicit parameter `Hnum`. -/
def numItoMilsteinE (f : Vec → ℚ → Vec) (G : Vec → ℚ → Mat) (y0 : NpVec)
    (tspan : List ℚ) (Imethod : Mat → ℚ → Mat × Arr3) (dW : Option Mat)
    (I : Option Arr3) (normalized : Bool) (downsample : ℕ)
    (Hnum : Vec → ℚ → Arr3) (nrm : Vec → ℚ) (deltaW : ℕ → ℕ → ℚ → Mat) :
    Except PyErr Traj1 :=
  match _check_args f (.GMatrix G) y0 tspan dW I none with
  | .error e => .error e
  | .ok _ =>
      itoMilsteinE f G Hnum y0 tspan Imethod dW I normalized downsample nrm deltaW

/-- `stratHeun` (integrate.py lines 487-545): predictor–corrector over the
full grid (no downsampling); reads `yn = y[n]` from the output array. -/
def stratHeunE (f : Vec → ℚ → Vec) (G : Vec → ℚ → Mat) (y0 : NpVec)
    (tspan : List ℚ) (dW : Option Mat) (normalized : Bool)
    (nrm : Vec → ℚ) (deltaW : ℕ → ℕ → ℚ → Mat) : Except PyErr Traj1 :=
  match _check_args f (.GMatrix G) y0 tspan dW none none with
  | .error e => .error e
  | .ok (d, m, _) =>
    let N := tspan.length
    let h := (tspan.getD (N - 1) 0 - tspan.getD 0 0) / ((N : ℚ) - 1)
    let dW' := match dW with
      | some w => w
      | none => deltaW (N - 1) m h
    let init : List Vec := (List.replicate N (List.replicate d (0 : ℚ))).set 0 y0.data
    let out := (List.range (N - 1)).foldl
      (fun (y : List Vec) n =>
        let tn := tspan.getD n 0
        let tnp1 := tspan.getD (n + 1) 0
        let yn := y.getD n []
        let dWn := dW'.getD n []
        let fn := f yn tn
        let Gn := G yn tn
        let ybar := vadd (vadd yn (smulV h fn)) (matVec Gn dWn)
        let fnbar := f ybar tnp1
        let Gnbar := G ybar tnp1
        let ynp1 := vadd (vadd yn (smulV h (smulV (1 / 2) (vadd fn fnbar))))
          (matVec (smulM (1 / 2) (matAdd Gn Gnbar)) dWn)
        y.set (n + 1) (if normalized then vdivs ynp1 (nrm ynp1) else ynp1))
      init
    .ok ⟨out⟩

/-- The per-step `Gn` of `_Roessler2010_SRK2` (integrate.py lines 737-741):
for separate column functions the preallocated `Gn` is filled column by
column, otherwise `G(Yn, tn)` is used directly. -/
def srk2Gn (G : GFun) (d : ℕ) (Yn : Vec) (tn : ℚ) : Mat :=
  match G with
  | .GColumns gs => matFromCols d (gs.map (fun g => g Yn tn))
  | .GMatrix g => g Yn tn

/-- The `for k in range(0, m)` diffusion-correction accumulation of
`_Roessler2010_SRK2` (integrate.py lines 749-754), starting from the base
update `acc`.  `H2c k` and `H3c k` are the columns `H2[:,k]` and `H3[:,k]`. -/
def srk2Corr (G : GFun) (m : ℕ) (sqrth tn1 : ℚ) (H2c H3c : ℕ → Vec) (acc : Vec) : Vec :=
  (List.range m).foldl
    (fun Yn1 k =>
      match G with
      | .GColumns gs =>
          vadd Yn1 (smulV ((1 / 2) * sqrth)
            (vsub ((gs.getD k gZero) (H2c k) tn1) ((gs.getD k gZero) (H3c k) tn1)))
      | .GMatrix g =>
          vadd Yn1 (smulV ((1 / 2) * sqrth)
            (vsub (col (g (H2c k) tn1) k) (col (g (H3c k) tn1) k))))
    acc

/-- One loop iteration of `_Roessler2010_SRK2` (integrate.py lines 727-756),
producing `Yn1` from the carried `Yn`.  `H2 = H20b + sum1` and
`H3 = H20b - sum1` are accessed column-wise, so the columns are formed
directly.  `sqrtQ` stands for `np.sqrt`. -/
def srk2Step (f : Vec → ℚ → Vec) (G : GFun) (d m : ℕ) (tspan : List ℚ)
    (dW' : Mat) (I : Arr3) (normalized : Bool) (nrm : Vec → ℚ) (sqrtQ : ℚ → ℚ)
    (Yn : Vec) (n : ℕ) : Vec :=
  let tn := tspan.getD n 0
  let tn1 := tspan.getD (n + 1) 0
  let h := tn1 - tn
  let sqrth := sqrtQ h
  let Ik := dW'.getD n []
  let Iij := I.getD n []
  let fnh := smulV h (f Yn tn)
  let Gn := srk2Gn G d Yn tn
  let sum1 := matDivS (matMul Gn Iij) sqrth
  let H20 := vadd Yn fnh
  let H2c := fun k => vadd H20 (col sum1 k)
  let H3c := fun k => vsub H20 (col sum1 k)
  let fn1h := smulV h (f H20 tn1)
  let Yn1 := vadd (vadd Yn (smulV (1 / 2) (vadd fnh fn1h))) (matVec Gn Ik)
  let Yn1 := srk2Corr G m sqrth tn1 H2c H3c Yn1
  if normalized then vdivs Yn1 (nrm Yn1) else Yn1

/-- `_Roessler2010_SRK2` (integrate.py lines 672-759), the shared SRI2/SRS2
kernel.  `IJmethod` stands for the external repeated-integral provider
(`Ikpw`/`Iwik`/`Jkpw`/`Jwik`), used only when `IJ` is not supplied. -/
def RoesslerSRK2E (f : Vec → ℚ → Vec) (G : GFun) (y0 : NpVec) (tspan : List ℚ)
    (IJmethod : Mat → ℚ → Mat × Arr3) (dW : Option Mat) (IJ : Option Arr3)
    (normalized : Bool) (downsample : ℕ) (nrm : Vec → ℚ) (sqrtQ : ℚ → ℚ)
    (deltaW : ℕ → ℕ → ℚ → Mat) : Except PyErr Traj1 :=
  match _check_args f G y0 tspan dW IJ none with
  | .error e => .error e
  | .ok (d, m, G) =>
    let N := tspan.length
    let Nrec := (N - 1) / downsample + 1
    let h0 := (tspan.getD (N - 1) 0 - tspan.getD 0 0) / ((N : ℚ) - 1)
    let dW' := match dW with
      | some w => w
      | none => deltaW (N - 1) m h0
    let I := match IJ with
      | some a => a
      | none => (IJmethod dW' h0).2
    let init : List Vec := (List.replicate Nrec (List.replicate d (0 : ℚ))).set 0 y0.data
    let out := (List.range (N - 1)).foldl
      (fun (st : List Vec × Vec) n =>
        let Yn1 := srk2Step f G d m tspan dW' I normalized nrm sqrtQ st.2 n
        (if n % downsample = 0 then st.1.set (recIdxN downsample n) Yn1 else st.1, Yn1))
      (init, y0.data)
    .ok ⟨out.1⟩

/-- `itoSRI2` (integrate.py lines 548-607): delegates to the SRK2 kernel. -/
def itoSRI2E (f : Vec → ℚ → Vec) (G : GFun) (y0 : NpVec) (tspan : List ℚ)
    (Imethod : Mat → ℚ → Mat × Arr3) (dW : Option Mat) (I : Option Arr3)
    (normalized : Bool) (downsample : ℕ) (nrm : Vec → ℚ) (sqrtQ : ℚ → ℚ)
    (deltaW : ℕ → ℕ → ℚ → Mat) : Except PyErr Traj1 :=
  RoesslerSRK2E f G y0 tspan Imethod dW I normalized downsample nrm sqrtQ deltaW

/-- `stratSRS2` (integrate.py lines 610-669): delegates to the SRK2 kernel
with the default `downsample = 1`. -/
def stratSRS2E (f : Vec → ℚ → Vec) (G : GFun) (y0 : NpVec) (tspan : List ℚ)
    (Jmethod : Mat → ℚ → Mat × Arr3) (dW : Option Mat) (J : Option Arr3)
    (normalized : Bool) (nrm : Vec → ℚ) (sqrtQ : ℚ → ℚ)
    (deltaW : ℕ → ℕ → ℚ → Mat) : Except PyErr Traj1 :=
  RoesslerSRK2E f G y0 tspan Jmethod dW J normalized 1 nrm sqrtQ deltaW

/-- The residual `_imp` of `stratKP2iS` (integrate.py lines 834-840):
`(1-gam)*Yn + gam*Ynm1 + (al2*f(Ynp1,tnp1) + (gam*al1 + (1-al2))*fn
 + gam*(1-al1)*fnm1)*h + Vn + gam*Vnm1 - Ynp1`. -/
def kpImp (f : Vec → ℚ → Vec) (gam al1 al2 : Vec) (h tnp1 : ℚ)
    (Yn Ynm1 Vn Vnm1 fn fnm1 : Vec) (Ynp1 : Vec) : Vec :=
  vsub
    (vadd
      (vadd
        (vadd
          (vadd (vmul (gam.map (fun x => 1 - x)) Yn) (vmul gam Ynm1))
          (smulV h
            (vadd
              (vadd (vmul al2 (f Ynp1 tnp1))
                (vmul (vadd (vmul gam al1) (al2.map (fun x => 1 - x))) fn))
              (vmul (vmul gam (al1.map (fun x => 1 - x))) fnm1))))
        Vn)
      (vmul gam Vnm1))
    Ynp1

/-- The time-stepping loop of `stratKP2iS` (integrate.py lines 844-878),
written as structural recursion over the remaining step indices.  The carried
`fn` and `Vn` model the Python variables initialised to `None` before the
loop; they are `none` only while unused (the first iteration).  `fsolve`
stands for `scipy.optimize.fsolve` with `full_output=True`: it receives the
residual, the initial guess and `xtol` and returns `(root, status, mesg)`. -/
def kpLoop (f : Vec → ℚ → Vec) (g : Vec → ℚ → Mat) (gam al1 al2 : Vec)
    (rtol : ℚ) (normalized : Bool) (nrm : Vec → ℚ) (sqrtQ : ℚ → ℚ)
    (fsolve : (Vec → Vec) → Vec → ℚ → Vec × ℕ × String)
    (tspan : List ℚ) (dW' : Mat) (J : Arr3) (m : ℕ) :
    List ℕ → List Vec → Option Vec → Option Vec → Except PyErr (List Vec)
  | [], y, _, _ => .ok y
  | n :: rest, y, fnPrev, VnPrev =>
    let tn := tspan.getD n 0
    let tnp1 := tspan.getD (n + 1) 0
    let h := tnp1 - tn
    let sqrth := sqrtQ h
    let Yn := y.getD n []
    let Jk := dW'.getD n []
    let Jij := J.getD n []
    let fnm1 := fnPrev
    let fn := f Yn tn
    let Gn := g Yn tn
    -- Ybar = (Yn + fn*h).reshape((d, 1)) + Gn*sqrth, accessed column-wise
    let Ybarc := fun j => vadd (vadd Yn (smulV h fn)) (smulV sqrth (col Gn j))
    let sum1 := (List.range m).foldl
      (fun acc j1 => vadd acc (matVec (matAdd (g (Ybarc j1) tn) (smulM (-1) Gn)) (Jij.getD j1 [])))
      (List.replicate Yn.length (0 : ℚ))
    let Vnm1 := VnPrev
    let Vn := vadd (matVec Gn Jk) (vdivs sum1 sqrth)
    if n = 0 then
      -- first step: Kloeden & Platen explicit order 1.0 strong scheme
      kpLoop f g gam al1 al2 rtol normalized nrm sqrtQ fsolve tspan dW' J m
        rest (y.set (n + 1) (vadd (vadd Yn (smulV h fn)) Vn)) (some fn) (some Vn)
    else
      let tnm1 := tspan.getD (n - 1) 0
      let Ynm1 := y.getD (n - 1) []
      -- solve _imp(Ynp1, ...) == 0 for Ynp1, seeded at Yn
      let r := fsolve
        (kpImp f gam al1 al2 h tnp1 Yn Ynm1 Vn (Vnm1.getD []) fn (fnm1.getD []))
        Yn rtol
      let _ := tnm1
      match r.2.1 with
      | 1 =>
          let Ynp1 := if normalized then vdivs r.1 (nrm r.1) else r.1
          kpLoop f g gam al1 al2 rtol normalized nrm sqrtQ fsolve tspan dW' J m
            rest (y.set (n + 1) Ynp1) (some fn) (some Vn)
      | _ => .error .runtimeError

/-- `stratKP2iS` (integrate.py lines 761-879).  After `_check_args` it rejects
a column-function `G` and a complex-valued `y0`, fills in the default
weights `gam = al1 = al2 = 0.5 * ones(d)`, and runs the two-step implicit
loop. -/
def stratKP2iSE (f : Vec → ℚ → Vec) (G : GFun) (y0 : NpVec) (tspan : List ℚ)
    (Jmethod : Mat → ℚ → Mat × Arr3) (gam0 al10 al20 : Option Vec) (rtol : ℚ)
    (dW : Option Mat) (J : Option Arr3) (normalized : Bool) (nrm : Vec → ℚ)
    (sqrtQ : ℚ → ℚ) (fsolve : (Vec → Vec) → Vec → ℚ → Vec × ℕ × String)
    (deltaW : ℕ → ℕ → ℚ → Mat) : Except PyErr Traj1 :=
  match _check_args f G y0 tspan dW J none with
  | .error e => .error e
  | .ok (d, m, G) =>
    match G with
    | .GColumns _ => .error .sdeValueKPnotMatrix
    | .GMatrix g =>
      if iscomplexobj y0 then .error .sdeValueKPcomplex
      else
        let gam := gam0.getD (List.replicate d (1 / 2 : ℚ))
        let al1 := al10.getD (List.replicate d (1 / 2 : ℚ))
        let al2 := al20.getD (List.replicate d (1 / 2 : ℚ))
        let N := tspan.length
        let h := (tspan.getD (N - 1) 0 - tspan.getD 0 0) / ((N : ℚ) - 1)
        let dW' := match dW with
          | some w => w
          | none => deltaW (N - 1) m h
        let J' := match J with
          | some a => a
          | none => (Jmethod dW' h).2
        let init : List Vec := (List.replicate N (List.replicate d (0 : ℚ))).set 0 y0.data
        match kpLoop f g gam al1 al2 rtol normalized nrm sqrtQ fsolve tspan dW' J' m
          (List.range (N - 1)) init none none with
        | .error e => .error e
        | .ok y => .ok ⟨y⟩

/-- The mode-dependent step map `Phi` described in the specification of the
implicit Euler family: `Phi(z) = y_n + f(z,t_n)h + G(z,t_n)·dW_n` in
`implicit` mode, `Phi(z) = y_n + f(z,t_n)h + G(y_n,t_n)·dW_n` in
`semi_implicit_drift` mode, and `Phi(z) = y_n + f(y_n,t_n)h + G(z,t_n)·dW_n`
in `semi_implicit_diffusion` mode. -/
def phiSpec (ity : ImplicitType) (f : Vec → ℚ → Vec) (G : Vec → ℚ → Mat)
    (h tn : ℚ) (dWn yn : Vec) (z : Vec) : Vec :=
  match ity with
  | .implicit => vadd (vadd yn (smulV h (f z tn))) (matVec (G z tn) dWn)
  | .semi_implicit_drift => vadd (vadd yn (smulV h (f z tn))) (matVec (G yn tn) dWn)
  | .semi_implicit_diffusion => vadd (vadd yn (smulV h (f yn tn))) (matVec (G z tn) dWn)

/-- The normalized step map: `Phi` followed by projection onto the unit
sphere (division by the Euclidean norm, `nrm` standing for `la.norm`). -/
def nphiSpec (ity : ImplicitType) (f : Vec → ℚ → Vec) (G : Vec → ℚ → Mat)
    (h tn : ℚ) (dWn yn : Vec) (nrm : Vec → ℚ) (z : Vec) : Vec :=
  vdivs (phiSpec ity f G h tn dWn yn z) (nrm (phiSpec ity f G h tn dWn yn z))

/-- `numpy.linalg.norm` restricted to length-1 real vectors, where the
Euclidean norm is the absolute value of the single entry. -/
def nrm1 (v : Vec) : ℚ := |v.headD 0|

/-- C7: with `normalized=False`, each `itoImplicitEuler` step computes
`y_{n+1}` by exactly three applications of the mode-dependent step map `Phi`
starting from `y_n` — the seed `Phi(y_n)` (which equals the explicit
Euler–Maruyama estimate in every mode) followed by exactly two further
fixed-point passes with no convergence check. -/
theorem sdeint_C7 (ity : ImplicitType) (f : Vec → ℚ → Vec) (G : Vec → ℚ → Mat)
    (h : ℚ) (nrm : Vec → ℚ) (downsample n : ℕ) (tn : ℚ) (dWn yn : Vec)
    (norms : List ℚ) :
    (ieTriple ity f G h false nrm downsample n tn dWn yn norms).1
      = phiSpec ity f G h tn dWn yn
          (phiSpec ity f G h tn dWn yn (phiSpec ity f G h tn dWn yn yn))
    ∧ phiSpec ity f G h tn dWn yn yn = euler_maruyama_step f G h tn dWn yn := by
  cases ity <;> exact ⟨rfl, rfl⟩

/-- C10: with `normalized=True`, the unit-norm projection happens inside every
`implicit_step` call — after the explicit seed and after each of the two
refinement passes — so a step of `itoImplicitEuler` iterates the normalized
map three times, and the norm recorded for a retained step is the
pre-normalization norm produced by the final pass. -/
theorem sdeint_C10 (ity : ImplicitType) (f : Vec → ℚ → Vec) (G : Vec → ℚ → Mat)
    (h : ℚ) (nrm : Vec → ℚ) (downsample n : ℕ) (tn : ℚ) (dWn yn : Vec)
    (norms : List ℚ) :
    (ieTriple ity f G h true nrm downsample n tn dWn yn norms).1
      = nphiSpec ity f G h tn dWn yn nrm
          (nphiSpec ity f G h tn dWn yn nrm (nphiSpec ity f G h tn dWn yn nrm yn))
    ∧ (ieTriple ity f G h true nrm downsample n tn dWn yn norms).2
      = (if n % downsample = 0 then
          norms.set (recIdxN downsample n)
            (nrm (phiSpec ity f G h tn dWn yn
              (nphiSpec ity f G h tn dWn yn nrm (nphiSpec ity f G h tn dWn yn nrm yn))))
         else norms) := by
  constructor
  · cases ity <;> rfl
  · by_cases hmod : n % downsample = 0 <;>
      cases ity <;>
      simp [ieTriple, implicit_step, nphiSpec, phiSpec, hmod, List.set_set]

/-- C1 (failing evaluation): `itoEuler` at the default `downsample = 1` on the
system `f ≡ [1]`, `G ≡ 0`, `y0 = [0]`, `tspan = [0, 1]`, `dW = [[0]]` returns
the trajectory `[[1], [0]]`: the saving index `int((0-1)/1)+1 = 0` makes the
first step overwrite row 0, so the first row is the state after one step, not
`y0`, contradicting the claim (and the docstring "With the initial value y0 in
the first row"). -/
theorem sdeint_C1 :
    itoEulerE (fun _ _ => [1]) (fun _ _ => [[0]]) ⟨[0], .float64⟩ [0, 1]
        (some [[0]]) false 1 nrm1 (fun _ _ _ => [])
      = .ok ⟨[[1], [0]]⟩
    ∧ ([[1], [0]] : List Vec).headD [] ≠ [(0 : ℚ)] := by
  constructor
  · norm_num [itoEulerE, _check_args, checkGrid, npDiff, npMinE, npMaxE, npIsClose,
      deriveM, checkDW, checkIJ, checkH, shape2, euler_maruyama_step, vadd, smulV,
      matVec, dotV, vdivs, recIdxN, recIdxZ, List.range_succ, List.replicate_succ]
  · norm_num

/-- C2 (failing evaluation): `itoEuler` with `downsample = 2` on `f ≡ [1]`,
`G ≡ 0`, `y0 = [1]`, `tspan = [0, 1, 2, 3, 4]` (so the exact states are
`[1], [2], [3], [4], [5]`) returns `[[1], [4], [0]]`: the row count
`floor((N-1)/k)+1 = 3` is as claimed, but the retained rows are not the grid
states `[[1], [3], [5]]` — row 1 holds the state after step 2 (time `t_3`,
written twice), and the final row is never written and stays zero even though
`k = 2` divides `N-1 = 4`. -/
theorem sdeint_C2 :
    itoEulerE (fun _ _ => [1]) (fun _ _ => [[0]]) ⟨[1], .float64⟩ [0, 1, 2, 3, 4]
        (some [[0], [0], [0], [0]]) false 2 nrm1 (fun _ _ _ => [])
      = .ok ⟨[[1], [4], [0]]⟩
    ∧ ([[1], [4], [0]] : List Vec) ≠ [[1], [3], [5]] := by
  constructor
  · norm_num [itoEulerE, _check_args, checkGrid, npDiff, npMinE, npMaxE, npIsClose,
      deriveM, checkDW, checkIJ, checkH, shape2, euler_maruyama_step, vadd, smulV,
      matVec, dotV, vdivs, recIdxN, recIdxZ, List.range_succ, List.replicate_succ,
      List.set, show Int.tdiv 1 2 = 0 from by decide,
      show Int.tdiv (-1) 2 = 0 from by decide]
  · norm_num

/-- C3 (failing evaluation): calling `itoQuasiImplicitEuler` on a perfectly
valid one-channel system with `implicit_ports` omitted (`None`) raises
`TypeError` — the list comprehension `[i for i in range(m) if i not in
implicit_ports]` executes before the `None` default is filled in — instead of
succeeding with all channels explicit as the claim states. -/
theorem sdeint_C3 :
    itoQuasiImplicitEulerE (fun _ _ => [0]) (fun _ _ => [[0]]) ⟨[1], .float64⟩
        [0, 1] (some [[0]]) false 1 none nrm1 (fun _ _ _ => [])
      = .error .typeError := by
  norm_num [itoQuasiImplicitEulerE, _check_args, checkGrid, npDiff, npMinE, npMaxE,
    npIsClose, deriveM, checkDW, checkIJ, checkH, shape2]

/-- C5 (failing evaluation): `stratKP2iS` with `normalized=True` on
`f ≡ [3]`, `G ≡ 0`, `y0 = [2]`, `tspan = [0, 1]`, `dW = [[0]]`, `J = [[[0]]]`
returns the trajectory `[[2], [5]]`: the first step (`n = 0`) uses the
explicit scheme and `continue`s before the normalization branch, so the
entry `y_1 = [5]` has Euclidean norm `5 ≠ 1`, contradicting the claim that
every entry `n ≥ 1` is unit-norm. -/
theorem sdeint_C5 :
    stratKP2iSE (fun _ _ => [3]) (.GMatrix (fun _ _ => [[0]])) ⟨[2], .float64⟩
        [0, 1] (fun w _ => (w, [])) none none none (1 / 10000) (some [[0]])
        (some [[[0]]]) true nrm1 (fun q => q) (fun _ g _ => (g, 1, ""))
        (fun _ _ _ => [])
      = .ok ⟨[[2], [5]]⟩
    ∧ nrm1 [(5 : ℚ)] ≠ 1 := by
  constructor
  · norm_num [stratKP2iSE, _check_args, checkGrid, npDiff, npMinE, npMaxE, npIsClose,
      deriveM, checkDW, checkIJ, checkH, shape2, shape3, iscomplexobj, kpLoop, kpImp,
      vadd, vsub, vmul, smulV, smulM, matAdd, matVec, dotV, vdivs, col,
      List.range_succ, List.range_zero, List.foldl_cons, List.foldl_nil,
      List.foldl_append, List.replicate_succ, List.set,
      show List.range 1 = [0] from rfl]
  · norm_num [nrm1]

/-- C4 (counterexample): for the integer scalar `y0 = 5`, the promotion block
gives the length-1 array dtype `float64`, not the original integral type —
`numtype = np.float64 if isinstance(y0, numbers.Integral) else type(y0)` —
so the claim "element type is the original numeric type of y0 ... including
integer ... types" fails. -/
theorem sdeint_C4_cex :
    ((scalarPromote ⟨"f", fun _ _ => PyScalar.pyInt 0⟩
        ⟨"G", fun _ _ => PyScalar.pyInt 0⟩ (PyScalar.pyInt 5)).1).dtype
      ≠ (PyScalar.pyInt 5).pytype := by
  decide

/-- C4 (amended): the Problem Normalizer promotes a plain numeric scalar `y0`
to a length-1 array whose element type is `float64` when `y0` is an integral
number and the original numeric type of `y0` otherwise, and promotes
scalar-returning `f` and `G` to 1-vector / 1×1-matrix adapters that preserve
each function's name. -/
theorem sdeint_C4 (f g : NamedFn (ℚ → ℚ → PyScalar)) (y0 : PyScalar) :
    (scalarPromote f g y0).1.data = [y0.val]
    ∧ (scalarPromote f g y0).1.dtype
        = (if y0.isIntegral then DType.float64 else y0.pytype)
    ∧ (scalarPromote f g y0).2.1.name = f.name
    ∧ (scalarPromote f g y0).2.2.name = g.name
    ∧ (scalarPromote f g y0).2.1.fn = (fun y t => [(f.fn (y.getD 0 0) t).val])
    ∧ (scalarPromote f g y0).2.2.fn = (fun y t => [[(g.fn (y.getD 0 0) t).val]]) := by
  exact ⟨rfl, rfl, rfl, rfl, rfl, rfl⟩

/-- Helper: a failing grid check makes `_check_args` fail with the same
error. -/
theorem check_args_grid_err (f : Vec → ℚ → Vec) (G : GFun) (y0 : NpVec)
    (tspan : List ℚ) (dW : Option Mat) (IJ : Option Arr3)
    (H : Option (Vec → ℚ → Arr3)) (e : PyErr)
    (h : checkGrid tspan = .error e) :
    _check_args f G y0 tspan dW IJ H = .error e := by
  unfold _check_args
  rw [h]

/-- Helper: a non-uniform grid (min and max consecutive differences not close)
makes the grid check fail with the equal-spacing `SDEValueError`. -/
theorem checkGrid_nonuniform (tspan : List ℚ) (dmin dmax : ℚ)
    (h1 : npMinE (npDiff tspan) = .ok dmin)
    (h2 : npMaxE (npDiff tspan) = .ok dmax)
    (h3 : npIsClose dmin dmax = false) :
    checkGrid tspan = .error .sdeValueNonuniform := by
  unfold checkGrid
  rw [h1, h2]
  simp [h3]

/-- Helper: with the grid, `f` and `G` checks passing, a `dW` whose shape is
not `(len(tspan)-1, m)` makes `_check_args` fail with the `SDEValueError`
naming that expected shape. -/
theorem check_args_dW_err (f : Vec → ℚ → Vec) (G : GFun) (y0 : NpVec)
    (tspan : List ℚ) (w : Mat) (IJ : Option Arr3)
    (H : Option (Vec → ℚ → Arr3)) (m : ℕ)
    (hg : checkGrid tspan = .ok ())
    (hf : (f y0.data (tspan.headD 0)).length = y0.data.length)
    (hm : deriveM G y0.data (tspan.headD 0) y0.data.length = .ok m)
    (hw : shape2 w ≠ (tspan.length - 1, m)) :
    _check_args f G y0 tspan (some w) IJ H
      = .error (.sdeValueDW (tspan.length - 1) m) := by
  have hfne : ¬ ((f y0.data (tspan.headD 0)).length ≠ y0.data.length) :=
    fun hne => hne hf
  have hdw : checkDW (some w) tspan m = .error (.sdeValueDW (tspan.length - 1) m) := by
    simp only [checkDW]
    rw [if_pos hw]
  simp only [_check_args, hg, if_neg hfne, hm, hdw]

/-- Helper: with the grid, `f`, `G` and `dW` checks passing, an `IJ` whose
shape is not `(len(tspan)-1, m, m)` makes `_check_args` fail with the
`SDEValueError` naming that expected shape. -/
theorem check_args_IJ_err (f : Vec → ℚ → Vec) (G : GFun) (y0 : NpVec)
    (tspan : List ℚ) (dW : Option Mat) (a : Arr3)
    (H : Option (Vec → ℚ → Arr3)) (m : ℕ)
    (hg : checkGrid tspan = .ok ())
    (hf : (f y0.data (tspan.headD 0)).length = y0.data.length)
    (hm : deriveM G y0.data (tspan.headD 0) y0.data.length = .ok m)
    (hdw : checkDW dW tspan m = .ok ())
    (ha : shape3 a ≠ (tspan.length - 1, m, m)) :
    _check_args f G y0 tspan dW (some a) H
      = .error (.sdeValueIJ (tspan.length - 1) m) := by
  have hfne : ¬ ((f y0.data (tspan.headD 0)).length ≠ y0.data.length) :=
    fun hne => hne hf
  have hij : checkIJ (some a) tspan m = .error (.sdeValueIJ (tspan.length - 1) m) := by
    simp only [checkIJ]
    rw [if_pos ha]
  simp only [_check_args, hg, if_neg hfne, hm, hdw, hij]

/-- Helper: a failing `_check_args` makes `itoEuler` fail with the same error
before any time-stepping. -/
theorem itoEulerE_check_err (f : Vec → ℚ → Vec) (G : Vec → ℚ → Mat) (y0 : NpVec)
    (tspan : List ℚ) (dW : Option Mat) (nz : Bool) (k : ℕ) (nrm : Vec → ℚ)
    (dl : ℕ → ℕ → ℚ → Mat) (e : PyErr)
    (h : _check_args f (.GMatrix G) y0 tspan dW none none = .error e) :
    itoEulerE f G y0 tspan dW nz k nrm dl = .error e := by
  simp only [itoEulerE, h]

/-- Helper: a failing `_check_args` makes `itoImplicitEuler` fail with the
same error before any time-stepping. -/
theorem itoImplicitEulerE_check_err (f : Vec → ℚ → Vec) (G : Vec → ℚ → Mat)
    (y0 : NpVec) (tspan : List ℚ) (dW : Option Mat) (nz : Bool) (k : ℕ)
    (ity : ImplicitType) (nrm : Vec → ℚ) (dl : ℕ → ℕ → ℚ → Mat) (e : PyErr)
    (h : _check_args f (.GMatrix G) y0 tspan dW none none = .error e) :
    itoImplicitEulerE f G y0 tspan dW nz k ity nrm dl = .error e := by
  simp only [itoImplicitEulerE, h]

/-- Helper: a failing `_check_args` makes `itoQuasiImplicitEuler` fail with
the same error before any time-stepping. -/
theorem itoQuasiImplicitEulerE_check_err (f : Vec → ℚ → Vec) (G : Vec → ℚ → Mat)
    (y0 : NpVec) (tspan : List ℚ) (dW : Option Mat) (nz : Bool) (k : ℕ)
    (ports : Option (List ℕ)) (nrm : Vec → ℚ) (dl : ℕ → ℕ → ℚ → Mat) (e : PyErr)
    (h : _check_args f (.GMatrix G) y0 tspan dW none none = .error e) :
    itoQuasiImplicitEulerE f G y0 tspan dW nz k ports nrm dl = .error e := by
  simp only [itoQuasiImplicitEulerE, h]

/-- Helper: a failing `_check_args` makes `itoMilstein` fail with the same
error before any time-stepping. -/
theorem itoMilsteinE_check_err (f : Vec → ℚ → Vec) (G : Vec → ℚ → Mat)
    (H : Vec → ℚ → Arr3) (y0 : NpVec) (tspan : List ℚ)
    (Im : Mat → ℚ → Mat × Arr3) (dW : Option Mat) (I : Option Arr3) (nz : Bool)
    (k : ℕ) (nrm : Vec → ℚ) (dl : ℕ → ℕ → ℚ → Mat) (e : PyErr)
    (h : _check_args f (.GMatrix G) y0 tspan dW I (some H) = .error e) :
    itoMilsteinE f G H y0 tspan Im dW I nz k nrm dl = .error e := by
  simp only [itoMilsteinE, h]

/-- Helper: a failing `_check_args` makes `numItoMilstein` fail with the same
error before any time-stepping (its own validation precedes the delegation to
`itoMilstein`). -/
theorem numItoMilsteinE_check_err (f : Vec → ℚ → Vec) (G : Vec → ℚ → Mat)
    (y0 : NpVec) (tspan : List ℚ) (Im : Mat → ℚ → Mat × Arr3) (dW : Option Mat)
    (I : Option Arr3) (nz : Bool) (k : ℕ) (Hnum : Vec → ℚ → Arr3)
    (nrm : Vec → ℚ) (dl : ℕ → ℕ → ℚ → Mat) (e : PyErr)
    (h : _check_args f (.GMatrix G) y0 tspan dW I none = .error e) :
    numItoMilsteinE f G y0 tspan Im dW I nz k Hnum nrm dl = .error e := by
  simp only [numItoMilsteinE, h]

/-- Helper: a failing `_check_args` makes `stratHeun` fail with the same error
before any time-stepping. -/
theorem stratHeunE_check_err (f : Vec → ℚ → Vec) (G : Vec → ℚ → Mat)
    (y0 : NpVec) (tspan : List ℚ) (dW : Option Mat) (nz : Bool)
    (nrm : Vec → ℚ) (dl : ℕ → ℕ → ℚ → Mat) (e : PyErr)
    (h : _check_args f (.GMatrix G) y0 tspan dW none none = .error e) :
    stratHeunE f G y0 tspan dW nz nrm dl = .error e := by
  simp only [stratHeunE, h]

/-- Helper: a failing `_check_args` makes the SRK2 kernel (hence `itoSRI2` and
`stratSRS2`) fail with the same error before any time-stepping. -/
theorem RoesslerSRK2E_check_err (f : Vec → ℚ → Vec) (G : GFun) (y0 : NpVec)
    (tspan : List ℚ) (IJm : Mat → ℚ → Mat × Arr3) (dW : Option Mat)
    (IJ : Option Arr3) (nz : Bool) (k : ℕ) (nrm : Vec → ℚ) (sq : ℚ → ℚ)
    (dl : ℕ → ℕ → ℚ → Mat) (e : PyErr)
    (h : _check_args f G y0 tspan dW IJ none = .error e) :
    RoesslerSRK2E f G y0 tspan IJm dW IJ nz k nrm sq dl = .error e := by
  simp only [RoesslerSRK2E, h]

/-- Helper: a failing `_check_args` makes `stratKP2iS` fail with the same
error before any time-stepping. -/
theorem stratKP2iSE_check_err (f : Vec → ℚ → Vec) (G : GFun) (y0 : NpVec)
    (tspan : List ℚ) (Jm : Mat → ℚ → Mat × Arr3) (g0 a1 a2 : Option Vec)
    (rtol : ℚ) (dW : Option Mat) (J : Option Arr3) (nz : Bool) (nrm : Vec → ℚ)
    (sq : ℚ → ℚ) (fs : (Vec → Vec) → Vec → ℚ → Vec × ℕ × String)
    (dl : ℕ → ℕ → ℚ → Mat) (e : PyErr)
    (h : _check_args f G y0 tspan dW J none = .error e) :
    stratKP2iSE f G y0 tspan Jm g0 a1 a2 rtol dW J nz nrm sq fs dl = .error e := by
  simp only [stratKP2iSE, h]

/-- C6: for every integrator, a non-uniform time grid (minimum and maximum
consecutive differences of `tspan` not equal within the `np.isclose` floating
tolerance), a supplied `dW` whose shape is not `(len(tspan)-1, m)`, or a
supplied `I`/`J` whose shape is not `(len(tspan)-1, m, m)`, makes the call
return the corresponding `SDEValueError` — the shape errors carrying the
expected shape that the message names — raised by `_check_args` before any
time-stepping, so no partial trajectory is produced.  The conjuncts cover, in
order, the non-uniform-grid and bad-`dW` cases for `itoEuler`,
`itoImplicitEuler`, `itoQuasiImplicitEuler`, `itoMilstein`, `numItoMilstein`,
`stratHeun`, `itoSRI2`, `stratSRS2` and `stratKP2iS`, then the bad-`IJ` cases
for `itoMilstein`, `numItoMilstein`, `itoSRI2`, `stratSRS2` and
`stratKP2iS`. -/
theorem sdeint_C6 :
    (∀ f G y0 tspan dW nz k nrm dl dmin dmax,
      npMinE (npDiff tspan) = .ok dmin → npMaxE (npDiff tspan) = .ok dmax →
      npIsClose dmin dmax = false →
      itoEulerE f G y0 tspan dW nz k nrm dl = .error .sdeValueNonuniform)
    ∧ (∀ f G y0 tspan w nz k nrm dl m,
      checkGrid tspan = .ok () →
      (f y0.data (tspan.headD 0)).length = y0.data.length →
      deriveM (.GMatrix G) y0.data (tspan.headD 0) y0.data.length = .ok m →
      shape2 w ≠ (tspan.length - 1, m) →
      itoEulerE f G y0 tspan (some w) nz k nrm dl
        = .error (.sdeValueDW (tspan.length - 1) m))
    ∧ (∀ f G y0 tspan dW nz k ity nrm dl dmin dmax,
      npMinE (npDiff tspan) = .ok dmin → npMaxE (npDiff tspan) = .ok dmax →
      npIsClose dmin dmax = false →
      itoImplicitEulerE f G y0 tspan dW nz k ity nrm dl
        = .error .sdeValueNonuniform)
    ∧ (∀ f G y0 tspan w nz k ity nrm dl m,
      checkGrid tspan = .ok () →
      (f y0.data (tspan.headD 0)).length = y0.data.length →
      deriveM (.GMatrix G) y0.data (tspan.headD 0) y0.data.length = .ok m →
      shape2 w ≠ (tspan.length - 1, m) →
      itoImplicitEulerE f G y0 tspan (some w) nz k ity nrm dl
        = .error (.sdeValueDW (tspan.length - 1) m))
    ∧ (∀ f G y0 tspan dW nz k ports nrm dl dmin dmax,
      npMinE (npDiff tspan) = .ok dmin → npMaxE (npDiff tspan) = .ok dmax →
      npIsClose dmin dmax = false →
      itoQuasiImplicitEulerE f G y0 tspan dW nz k ports nrm dl
        = .error .sdeValueNonuniform)
    ∧ (∀ f G y0 tspan w nz k ports nrm dl m,
      checkGrid tspan = .ok () →
      (f y0.data (tspan.headD 0)).length = y0.data.length →
      deriveM (.GMatrix G) y0.data (tspan.headD 0) y0.data.length = .ok m →
      shape2 w ≠ (tspan.length - 1, m) →
      itoQuasiImplicitEulerE f G y0 tspan (some w) nz k ports nrm dl
        = .error (.sdeValueDW (tspan.length - 1) m))
    ∧ (∀ f G H y0 tspan Im dW I nz k nrm dl dmin dmax,
      npMinE (npDiff tspan) = .ok dmin → npMaxE (npDiff tspan) = .ok dmax →
      npIsClose dmin dmax = false →
      itoMilsteinE f G H y0 tspan Im dW I nz k nrm dl
        = .error .sdeValueNonuniform)
    ∧ (∀ f G H y0 tspan Im w I nz k nrm dl m,
      checkGrid tspan = .ok () →
      (f y0.data (tspan.headD 0)).length = y0.data.length →
      deriveM (.GMatrix G) y0.data (tspan.headD 0) y0.data.length = .ok m →
      shape2 w ≠ (tspan.length - 1, m) →
      itoMilsteinE f G H y0 tspan Im (some w) I nz k nrm dl
        = .error (.sdeValueDW (tspan.length - 1) m))
    ∧ (∀ f G y0 tspan Im dW I nz k Hnum nrm dl dmin dmax,
      npMinE (npDiff tspan) = .ok dmin → npMaxE (npDiff tspan) = .ok dmax →
      npIsClose dmin dmax = false →
      numItoMilsteinE f G y0 tspan Im dW I nz k Hnum nrm dl
        = .error .sdeValueNonuniform)
    ∧ (∀ f G y0 tspan Im w I nz k Hnum nrm dl m,
      checkGrid tspan = .ok () →
      (f y0.data (tspan.headD 0)).length = y0.data.length →
      deriveM (.GMatrix G) y0.data (tspan.headD 0) y0.data.length = .ok m →
      shape2 w ≠ (tspan.length - 1, m) →
      numItoMilsteinE f G y0 tspan Im (some w) I nz k Hnum nrm dl
        = .error (.sdeValueDW (tspan.length - 1) m))
    ∧ (∀ f G y0 tspan dW nz nrm dl dmin dmax,
      npMinE (npDiff tspan) = .ok dmin → npMaxE (npDiff tspan) = .ok dmax →
      npIsClose dmin dmax = false →
      stratHeunE f G y0 tspan dW nz nrm dl = .error .sdeValueNonuniform)
    ∧ (∀ f G y0 tspan w nz nrm dl m,
      checkGrid tspan = .ok () →
      (f y0.data (tspan.headD 0)).length = y0.data.length →
      deriveM (.GMatrix G) y0.data (tspan.headD 0) y0.data.length = .ok m →
      shape2 w ≠ (tspan.length - 1, m) →
      stratHeunE f G y0 tspan (some w) nz nrm dl
        = .error (.sdeValueDW (tspan.length - 1) m))
    ∧ (∀ f GG y0 tspan Im dW I nz k nrm sq dl dmin dmax,
      npMinE (npDiff tspan) = .ok dmin → npMaxE (npDiff tspan) = .ok dmax →
      npIsClose dmin dmax = false →
      itoSRI2E f GG y0 tspan Im dW I nz k nrm sq dl
        = .error .sdeValueNonuniform)
    ∧ (∀ f GG y0 tspan Im w I nz k nrm sq dl m,
      checkGrid tspan = .ok () →
      (f y0.data (tspan.headD 0)).length = y0.data.length →
      deriveM GG y0.data (tspan.headD 0) y0.data.length = .ok m →
      shape2 w ≠ (tspan.length - 1, m) →
      itoSRI2E f GG y0 tspan Im (some w) I nz k nrm sq dl
        = .error (.sdeValueDW (tspan.length - 1) m))
    ∧ (∀ f GG y0 tspan Jm dW J nz nrm sq dl dmin dmax,
      npMinE (npDiff tspan) = .ok dmin → npMaxE (npDiff tspan) = .ok dmax →
      npIsClose dmin dmax = false →
      stratSRS2E f GG y0 tspan Jm dW J nz nrm sq dl
        = .error .sdeValueNonuniform)
    ∧ (∀ f GG y0 tspan Jm w J nz nrm sq dl m,
      checkGrid tspan = .ok () →
      (f y0.data (tspan.headD 0)).length = y0.data.length →
      deriveM GG y0.data (tspan.headD 0) y0.data.length = .ok m →
      shape2 w ≠ (tspan.length - 1, m) →
      stratSRS2E f GG y0 tspan Jm (some w) J nz nrm sq dl
        = .error (.sdeValueDW (tspan.length - 1) m))
    ∧ (∀ f GG y0 tspan Jm g0 a1 a2 rtol dW J nz nrm sq fs dl dmin dmax,
      npMinE (npDiff tspan) = .ok dmin → npMaxE (npDiff tspan) = .ok dmax →
      npIsClose dmin dmax = false →
      stratKP2iSE f GG y0 tspan Jm g0 a1 a2 rtol dW J nz nrm sq fs dl
        = .error .sdeValueNonuniform)
    ∧ (∀ f GG y0 tspan Jm g0 a1 a2 rtol w J nz nrm sq fs dl m,
      checkGrid tspan = .ok () →
      (f y0.data (tspan.headD 0)).length = y0.data.length →
      deriveM GG y0.data (tspan.headD 0) y0.data.length = .ok m →
      shape2 w ≠ (tspan.length - 1, m) →
      stratKP2iSE f GG y0 tspan Jm g0 a1 a2 rtol (some w) J nz nrm sq fs dl
        = .error (.sdeValueDW (tspan.length - 1) m))
    ∧ (∀ f G H y0 tspan Im dW a nz k nrm dl m,
      checkGrid tspan = .ok () →
      (f y0.data (tspan.headD 0)).length = y0.data.length →
      deriveM (.GMatrix G) y0.data (tspan.headD 0) y0.data.length = .ok m →
      checkDW dW tspan m = .ok () →
      shape3 a ≠ (tspan.length - 1, m, m) →
      itoMilsteinE f G H y0 tspan Im dW (some a) nz k nrm dl
        = .error (.sdeValueIJ (tspan.length - 1) m))
    ∧ (∀ f G y0 tspan Im dW a nz k Hnum nrm dl m,
      checkGrid tspan = .ok () →
      (f y0.data (tspan.headD 0)).length = y0.data.length →
      deriveM (.GMatrix G) y0.data (tspan.headD 0) y0.data.length = .ok m →
      checkDW dW tspan m = .ok () →
      shape3 a ≠ (tspan.length - 1, m, m) →
      numItoMilsteinE f G y0 tspan Im dW (some a) nz k Hnum nrm dl
        = .error (.sdeValueIJ (tspan.length - 1) m))
    ∧ (∀ f GG y0 tspan Im dW a nz k nrm sq dl m,
      checkGrid tspan = .ok () →
      (f y0.data (tspan.headD 0)).length = y0.data.length →
      deriveM GG y0.data (tspan.headD 0) y0.data.length = .ok m →
      checkDW dW tspan m = .ok () →
      shape3 a ≠ (tspan.length - 1, m, m) →
      itoSRI2E f GG y0 tspan Im dW (some a) nz k nrm sq dl
        = .error (.sdeValueIJ (tspan.length - 1) m))
    ∧ (∀ f GG y0 tspan Jm dW a nz nrm sq dl m,
      checkGrid tspan = .ok () →
      (f y0.data (tspan.headD 0)).length = y0.data.length →
      deriveM GG y0.data (tspan.headD 0) y0.data.length = .ok m →
      checkDW dW tspan m = .ok () →
      shape3 a ≠ (tspan.length - 1, m, m) →
      stratSRS2E f GG y0 tspan Jm dW (some a) nz nrm sq dl
        = .error (.sdeValueIJ (tspan.length - 1) m))
    ∧ (∀ f GG y0 tspan Jm g0 a1 a2 rtol dW a nz nrm sq fs dl m,
      checkGrid tspan = .ok () →
      (f y0.data (tspan.headD 0)).length = y0.data.length →
      deriveM GG y0.data (tspan.headD 0) y0.data.length = .ok m →
      checkDW dW tspan m = .ok () →
      shape3 a ≠ (tspan.length - 1, m, m) →
      stratKP2iSE f GG y0 tspan Jm g0 a1 a2 rtol dW (some a) nz nrm sq fs dl
        = .error (.sdeValueIJ (tspan.length - 1) m)) := by
  refine ⟨?_, ?_, ?_, ?_, ?_, ?_, ?_, ?_, ?_, ?_, ?_, ?_, ?_, ?_, ?_, ?_, ?_, ?_,
    ?_, ?_, ?_, ?_, ?_⟩
  · intro f G y0 tspan dW nz k nrm dl dmin dmax h1 h2 h3
    apply itoEulerE_check_err
    apply check_args_grid_err
    exact checkGrid_nonuniform _ _ _ h1 h2 h3
  · intro f G y0 tspan w nz k nrm dl m hg hf hm hw
    apply itoEulerE_check_err
    exact check_args_dW_err _ _ _ _ _ _ _ _ hg hf hm hw
  · intro f G y0 tspan dW nz k ity nrm dl dmin dmax h1 h2 h3
    apply itoImplicitEulerE_check_err
    apply check_args_grid_err
    exact checkGrid_nonuniform _ _ _ h1 h2 h3
  · intro f G y0 tspan w nz k ity nrm dl m hg hf hm hw
    apply itoImplicitEulerE_check_err
    exact check_args_dW_err _ _ _ _ _ _ _ _ hg hf hm hw
  · intro f G y0 tspan dW nz k ports nrm dl dmin dmax h1 h2 h3
    apply itoQuasiImplicitEulerE_check_err
    apply check_args_grid_err
    exact checkGrid_nonuniform _ _ _ h1 h2 h3
  · intro f G y0 tspan w nz k ports nrm dl m hg hf hm hw
    apply itoQuasiImplicitEulerE_check_err
    exact check_args_dW_err _ _ _ _ _ _ _ _ hg hf hm hw
  · intro f G H y0 tspan Im dW I nz k nrm dl dmin dmax h1 h2 h3
    apply itoMilsteinE_check_err
    apply check_args_grid_err
    exact checkGrid_nonuniform _ _ _ h1 h2 h3
  · intro f G H y0 tspan Im w I nz k nrm dl m hg hf hm hw
    apply itoMilsteinE_check_err
    exact check_args_dW_err _ _ _ _ _ _ _ _ hg hf hm hw
  · intro f G y0 tspan Im dW I nz k Hnum nrm dl dmin dmax h1 h2 h3
    apply numItoMilsteinE_check_err
    apply check_args_grid_err
    exact checkGrid_nonuniform _ _ _ h1 h2 h3
  · intro f G y0 tspan Im w I nz k Hnum nrm dl m hg hf hm hw
    apply numItoMilsteinE_check_err
    exact check_args_dW_err _ _ _ _ _ _ _ _ hg hf hm hw
  · intro f G y0 tspan dW nz nrm dl dmin dmax h1 h2 h3
    apply stratHeunE_check_err
    apply check_args_grid_err
    exact checkGrid_nonuniform _ _ _ h1 h2 h3
  · intro f G y0 tspan w nz nrm dl m hg hf hm hw
    apply stratHeunE_check_err
    exact check_args_dW_err _ _ _ _ _ _ _ _ hg hf hm hw
  · intro f GG y0 tspan Im dW I nz k nrm sq dl dmin dmax h1 h2 h3
    simp only [itoSRI2E]
    apply RoesslerSRK2E_check_err
    apply check_args_grid_err
    exact checkGrid_nonuniform _ _ _ h1 h2 h3
  · intro f GG y0 tspan Im w I nz k nrm sq dl m hg hf hm hw
    simp only [itoSRI2E]
    apply RoesslerSRK2E_check_err
    exact check_args_dW_err _ _ _ _ _ _ _ _ hg hf hm hw
  · intro f GG y0 tspan Jm dW J nz nrm sq dl dmin dmax h1 h2 h3
    simp only [stratSRS2E]
    apply RoesslerSRK2E_check_err
    apply check_args_grid_err
    exact checkGrid_nonuniform _ _ _ h1 h2 h3
  · intro f GG y0 tspan Jm w J nz nrm sq dl m hg hf hm hw
    simp only [stratSRS2E]
    apply RoesslerSRK2E_check_err
    exact check_args_dW_err _ _ _ _ _ _ _ _ hg hf hm hw
  · intro f GG y0 tspan Jm g0 a1 a2 rtol dW J nz nrm sq fs dl dmin dmax h1 h2 h3
    apply stratKP2iSE_check_err
    apply check_args_grid_err
    exact checkGrid_nonuniform _ _ _ h1 h2 h3
  · intro f GG y0 tspan Jm g0 a1 a2 rtol w J nz nrm sq fs dl m hg hf hm hw
    apply stratKP2iSE_check_err
    exact check_args_dW_err _ _ _ _ _ _ _ _ hg hf hm hw
  · intro f G H y0 tspan Im dW a nz k nrm dl m hg hf hm hdw ha
    apply itoMilsteinE_check_err
    exact check_args_IJ_err _ _ _ _ _ _ _ _ hg hf hm hdw ha
  · intro f G y0 tspan Im dW a nz k Hnum nrm dl m hg hf hm hdw ha
    apply numItoMilsteinE_check_err
    exact check_args_IJ_err _ _ _ _ _ _ _ _ hg hf hm hdw ha
  · intro f GG y0 tspan Im dW a nz k nrm sq dl m hg hf hm hdw ha
    simp only [itoSRI2E]
    apply RoesslerSRK2E_check_err
    exact check_args_IJ_err _ _ _ _ _ _ _ _ hg hf hm hdw ha
  · intro f GG y0 tspan Jm dW a nz nrm sq dl m hg hf hm hdw ha
    simp only [stratSRS2E]
    apply RoesslerSRK2E_check_err
    exact check_args_IJ_err _ _ _ _ _ _ _ _ hg hf hm hdw ha
  · intro f GG y0 tspan Jm g0 a1 a2 rtol dW a nz nrm sq fs dl m hg hf hm hdw ha
    apply stratKP2iSE_check_err
    exact check_args_IJ_err _ _ _ _ _ _ _ _ hg hf hm hdw ha

/-- Witness for C6: concrete calls exercising each error kind — `itoEuler` on
the non-uniform grid `[0, 1, 3]`, `itoEuler` with a `dW` of shape `(2, 1)`
where `(1, 1)` is expected, and `itoMilstein` with an empty `I` where shape
`(1, 1, 1)` is expected. -/
theorem sdeint_C6_witness :
    itoEulerE (fun _ _ => [0]) (fun _ _ => [[0]]) ⟨[1], .float64⟩ [0, 1, 3]
        none false 1 nrm1 (fun _ _ _ => [])
      = .error .sdeValueNonuniform
    ∧ itoEulerE (fun _ _ => [0]) (fun _ _ => [[0]]) ⟨[1], .float64⟩ [0, 1]
        (some [[0], [0]]) false 1 nrm1 (fun _ _ _ => [])
      = .error (.sdeValueDW 1 1)
    ∧ itoMilsteinE (fun _ _ => [0]) (fun _ _ => [[0]]) (fun _ _ => [[[0]]])
        ⟨[1], .float64⟩ [0, 1] (fun w _ => (w, [])) none (some []) false 1 nrm1
        (fun _ _ _ => [])
      = .error (.sdeValueIJ 1 1) := by
  obtain ⟨c1, c2, -, -, -, -, -, -, -, -, -, -, -, -, -, -, -, -, c19, -, -, -, -⟩ :=
    sdeint_C6
  refine ⟨?_, ?_, ?_⟩
  · exact c1 _ _ _ _ _ _ _ _ _ 1 2
      (by norm_num [npMinE, npDiff, min_def])
      (by norm_num [npMaxE, npDiff, max_def])
      (by norm_num [npIsClose])
  · exact c2 _ _ _ _ _ _ _ _ _ 1
      (by norm_num [checkGrid, npDiff, npMinE, npMaxE, npIsClose, min_def, max_def])
      rfl rfl (by decide)
  · exact c19 _ _ _ _ _ _ _ _ _ _ _ _ 1
      (by norm_num [checkGrid, npDiff, npMinE, npMaxE, npIsClose, min_def, max_def])
      rfl rfl rfl (by decide)

/-- Helper: when `_check_args` succeeds it returns the diffusion argument `G`
unchanged (Python only re-wraps a column list with `tuple(G)`, which the
`GFun` model represents identically). -/
theorem check_args_ok_G (f : Vec → ℚ → Vec) (G : GFun) (y0 : NpVec)
    (tspan : List ℚ) (dW : Option Mat) (IJ : Option Arr3)
    (H : Option (Vec → ℚ → Arr3)) :
    ∀ out, _check_args f G y0 tspan dW IJ H = .ok out → out.2.2 = G := by
  intro out h
  unfold _check_args at h
  dsimp only at h
  repeat' split at h
  all_goals first
    | (cases h; rfl)
    | simp_all

/-- C9: `stratKP2iS` rejects unsupported configurations at entry, before any
time-stepping — every call whose diffusion is a list of column functions
raises an error, and every call whose `y0` is complex-valued raises an error;
in both cases no step of the integration is performed (the result is an error
value, never a trajectory). -/
theorem sdeint_C9 :
    (∀ f gs y0 tspan Jm g0 a1 a2 rtol dW J nz nrm sq fs dl,
      isErr (stratKP2iSE f (GFun.GColumns gs) y0 tspan Jm g0 a1 a2 rtol dW J
        nz nrm sq fs dl) = true)
    ∧ (∀ f GG dat tspan Jm g0 a1 a2 rtol dW J nz nrm sq fs dl,
      isErr (stratKP2iSE f GG ⟨dat, DType.complex128⟩ tspan Jm g0 a1 a2 rtol
        dW J nz nrm sq fs dl) = true) := by
  constructor
  · intro f gs y0 tspan Jm g0 a1 a2 rtol dW J nz nrm sq fs dl
    cases hc : _check_args f (GFun.GColumns gs) y0 tspan dW J none with
    | error e => simp [stratKP2iSE, hc, isErr]
    | ok out =>
      obtain ⟨d, m, G⟩ := out
      have hG : G = GFun.GColumns gs :=
        check_args_ok_G f (GFun.GColumns gs) y0 tspan dW J none (d, m, G) hc
      subst hG
      simp [stratKP2iSE, hc, isErr]
  · intro f GG dat tspan Jm g0 a1 a2 rtol dW J nz nrm sq fs dl
    cases hc : _check_args f GG ⟨dat, DType.complex128⟩ tspan dW J none with
    | error e => simp [stratKP2iSE, hc, isErr]
    | ok out =>
      obtain ⟨d, m, G⟩ := out
      cases G with
      | GColumns gs => simp [stratKP2iSE, hc, isErr]
      | GMatrix g =>
        simp [stratKP2iSE, hc, isErr, iscomplexobj]

/-- Helper: rebuilding a rectangular `d × m` matrix from its `m` columns gives
the matrix back. -/
theorem matFromCols_of_cols (M : Mat) (d m : ℕ) (hd : M.length = d)
    (hr : ∀ r ∈ M, r.length = m) :
    matFromCols d ((List.range m).map (fun k => col M k)) = M := by
  apply List.ext_getElem
  · simp [matFromCols, hd]
  · intro i h1 h2
    have hi : i < M.length := h2
    simp only [matFromCols, List.getElem_map, List.getElem_range]
    apply List.ext_getElem
    · simp [hr M[i] (List.getElem_mem hi)]
    · intro j hj1 hj2
      have hjm : j < m := by simpa using hj1
      simp only [List.getElem_map, List.getElem_range, col]
      rw [List.getD_eq_getElem (M.map (fun r => r.getD j 0)) 0 (by simpa using hi)]
      simp only [List.getElem_map]
      rw [List.getD_eq_getElem M[i] 0 (by rw [hr M[i] (List.getElem_mem hi)]; exact hjm)]

/-- Helper: when each column function agrees with the corresponding column of
the matrix function, the per-step `Gn` of the SRK2 kernel is the same under
both calling conventions. -/
theorem srk2Gn_eq (g : Vec → ℚ → Mat) (gs : List (Vec → ℚ → Vec)) (d : ℕ)
    (hshape : ∀ y t, (g y t).length = d ∧ ∀ r ∈ g y t, r.length = gs.length)
    (hrel : ∀ k0, k0 < gs.length → ∀ y t, gs.getD k0 gZero y t = col (g y t) k0)
    (Yn : Vec) (tn : ℚ) :
    srk2Gn (.GColumns gs) d Yn tn = srk2Gn (.GMatrix g) d Yn tn := by
  simp only [srk2Gn]
  have hmap : gs.map (fun gk => gk Yn tn)
      = (List.range gs.length).map (fun k => col (g Yn tn) k) := by
    apply List.ext_getElem
    · simp
    · intro k hk1 hk2
      have hk : k < gs.length := by simpa using hk1
      simp only [List.getElem_map, List.getElem_range]
      have := hrel k hk Yn tn
      rwa [List.getD_eq_getElem gs gZero hk] at this
  rw [hmap, matFromCols_of_cols (g Yn tn) d gs.length (hshape Yn tn).1 (hshape Yn tn).2]

/-- Helper: the diffusion-correction loop of the SRK2 kernel is the same under
both calling conventions. -/
theorem srk2Corr_eq (g : Vec → ℚ → Mat) (gs : List (Vec → ℚ → Vec))
    (hrel : ∀ k0, k0 < gs.length → ∀ y t, gs.getD k0 gZero y t = col (g y t) k0)
    (sqrth tn1 : ℚ) (H2c H3c : ℕ → Vec) (acc : Vec) :
    srk2Corr (.GColumns gs) gs.length sqrth tn1 H2c H3c acc
      = srk2Corr (.GMatrix g) gs.length sqrth tn1 H2c H3c acc := by
  simp only [srk2Corr]
  apply List.foldl_ext
  intro a k hk
  have hk' : k < gs.length := List.mem_range.mp hk
  rw [hrel k hk' (H2c k) tn1, hrel k hk' (H3c k) tn1]

/-- Helper: a whole SRK2 step is the same under both calling conventions. -/
theorem srk2Step_eq (f : Vec → ℚ → Vec) (g : Vec → ℚ → Mat)
    (gs : List (Vec → ℚ → Vec)) (d : ℕ) (tspan : List ℚ) (dW' : Mat) (I : Arr3)
    (nz : Bool) (nrm : Vec → ℚ) (sq : ℚ → ℚ)
    (hshape : ∀ y t, (g y t).length = d ∧ ∀ r ∈ g y t, r.length = gs.length)
    (hrel : ∀ k0, k0 < gs.length → ∀ y t, gs.getD k0 gZero y t = col (g y t) k0)
    (Yn : Vec) (n : ℕ) :
    srk2Step f (.GColumns gs) d gs.length tspan dW' I nz nrm sq Yn n
      = srk2Step f (.GMatrix g) d gs.length tspan dW' I nz nrm sq Yn n := by
  simp only [srk2Step, srk2Gn_eq g gs d hshape hrel, srk2Corr_eq g gs hrel]

/-- Helper: for a well-shaped matrix diffusion on a nonempty state,
`_check_args` succeeds and derives `m` as the number of columns. -/
theorem check_args_ok_matrix (f : Vec → ℚ → Vec) (g : Vec → ℚ → Mat)
    (gs : List (Vec → ℚ → Vec)) (y0 : NpVec) (tspan : List ℚ) (w : Mat)
    (a : Arr3)
    (hgrid : checkGrid tspan = .ok ())
    (hd0 : y0.data ≠ [])
    (hf : (f y0.data (tspan.headD 0)).length = y0.data.length)
    (hshape : ∀ y t, (g y t).length = y0.data.length ∧ ∀ r ∈ g y t, r.length = gs.length)
    (hw : shape2 w = (tspan.length - 1, gs.length))
    (ha : shape3 a = (tspan.length - 1, gs.length, gs.length)) :
    _check_args f (.GMatrix g) y0 tspan (some w) (some a) none
      = .ok (y0.data.length, gs.length, .GMatrix g) := by
  have hfne : ¬ ((f y0.data (tspan.headD 0)).length ≠ y0.data.length) :=
    fun hne => hne hf
  have hm2 : deriveM (.GMatrix g) y0.data (tspan.headD 0) y0.data.length
      = .ok gs.length := by
    simp only [deriveM]
    rw [if_neg (fun hne => hne (hshape y0.data (tspan.headD 0)).1)]
    have hne : g y0.data (tspan.headD 0) ≠ [] := by
      intro hempty
      have := (hshape y0.data (tspan.headD 0)).1
      rw [hempty] at this
      exact hd0 (List.eq_nil_of_length_eq_zero this.symm)
    have hhead : (g y0.data (tspan.headD 0)).headD [] ∈ g y0.data (tspan.headD 0) := by
      cases hcase : g y0.data (tspan.headD 0) with
      | nil => exact absurd hcase hne
      | cons x xs => simp
    have : (shape2 (g y0.data (tspan.headD 0))).2 = gs.length :=
      (hshape y0.data (tspan.headD 0)).2 _ hhead
    rw [this]
  have hdwE : checkDW (some w) tspan gs.length = .ok () := by
    simp only [checkDW]
    rw [if_neg (fun hne => hne hw)]
  have hijE : checkIJ (some a) tspan gs.length = .ok () := by
    simp only [checkIJ]
    rw [if_neg (fun hne => hne ha)]
  simp only [_check_args, hgrid, if_neg hfne, hm2, hdwE, hijE, checkH]

/-- Helper: for column functions matching a well-shaped matrix diffusion,
`_check_args` succeeds and derives `m` as the number of column functions. -/
theorem check_args_ok_columns (f : Vec → ℚ → Vec) (g : Vec → ℚ → Mat)
    (gs : List (Vec → ℚ → Vec)) (y0 : NpVec) (tspan : List ℚ) (w : Mat)
    (a : Arr3)
    (hgrid : checkGrid tspan = .ok ())
    (hf : (f y0.data (tspan.headD 0)).length = y0.data.length)
    (hshape : ∀ y t, (g y t).length = y0.data.length ∧ ∀ r ∈ g y t, r.length = gs.length)
    (hrel : ∀ k0, k0 < gs.length → ∀ y t, gs.getD k0 gZero y t = col (g y t) k0)
    (hw : shape2 w = (tspan.length - 1, gs.length))
    (ha : shape3 a = (tspan.length - 1, gs.length, gs.length)) :
    _check_args f (.GColumns gs) y0 tspan (some w) (some a) none
      = .ok (y0.data.length, gs.length, .GColumns gs) := by
  have hfne : ¬ ((f y0.data (tspan.headD 0)).length ≠ y0.data.length) :=
    fun hne => hne hf
  have hall : ((List.range gs.length).all
      (fun k => ((gs.getD k gZero) y0.data (tspan.headD 0)).length == y0.data.length))
      = true := by
    rw [List.all_eq_true]
    intro k hk
    rw [hrel k (List.mem_range.mp hk)]
    simp only [col, List.length_map, beq_iff_eq]
    exact (hshape _ _).1
  have hm2 : deriveM (.GColumns gs) y0.data (tspan.headD 0) y0.data.length
      = .ok gs.length := by
    simp only [deriveM, hall, if_true]
  have hdwE : checkDW (some w) tspan gs.length = .ok () := by
    simp only [checkDW]
    rw [if_neg (fun hne => hne hw)]
  have hijE : checkIJ (some a) tspan gs.length = .ok () := by
    simp only [checkIJ]
    rw [if_neg (fun hne => hne ha)]
  simp only [_check_args, hgrid, if_neg hfne, hm2, hdwE, hijE, checkH]

/-- C8: for the Roessler SRK2 kernel (and hence `itoSRI2` and `stratSRS2`),
on a valid system with a fixed noise realization `(dW, IJ)`, supplying the
diffusion as a single matrix function `G` returns the same trajectory as
supplying it as the list of its `m` column functions `g_k` with
`g_k(y,t) = G(y,t)[:,k]`: the two calling conventions are interchangeable. -/
theorem sdeint_C8 (f : Vec → ℚ → Vec) (g : Vec → ℚ → Mat)
    (gs : List (Vec → ℚ → Vec)) (y0 : NpVec) (tspan : List ℚ)
    (IJm : Mat → ℚ → Mat × Arr3) (w : Mat) (a : Arr3) (nz : Bool) (k : ℕ)
    (nrm : Vec → ℚ) (sq : ℚ → ℚ) (dl : ℕ → ℕ → ℚ → Mat)
    (hgrid : checkGrid tspan = .ok ())
    (hd0 : y0.data ≠ [])
    (hf : (f y0.data (tspan.headD 0)).length = y0.data.length)
    (hshape : ∀ y t, (g y t).length = y0.data.length ∧ ∀ r ∈ g y t, r.length = gs.length)
    (hrel : ∀ k0, k0 < gs.length → ∀ y t, gs.getD k0 gZero y t = col (g y t) k0)
    (hw : shape2 w = (tspan.length - 1, gs.length))
    (ha : shape3 a = (tspan.length - 1, gs.length, gs.length)) :
    RoesslerSRK2E f (.GMatrix g) y0 tspan IJm (some w) (some a) nz k nrm sq dl
      = RoesslerSRK2E f (.GColumns gs) y0 tspan IJm (some w) (some a) nz k nrm sq dl
    ∧ itoSRI2E f (.GMatrix g) y0 tspan IJm (some w) (some a) nz k nrm sq dl
      = itoSRI2E f (.GColumns gs) y0 tspan IJm (some w) (some a) nz k nrm sq dl
    ∧ stratSRS2E f (.GMatrix g) y0 tspan IJm (some w) (some a) nz nrm sq dl
      = stratSRS2E f (.GColumns gs) y0 tspan IJm (some w) (some a) nz nrm sq dl := by
  have main : ∀ k' : ℕ,
      RoesslerSRK2E f (.GMatrix g) y0 tspan IJm (some w) (some a) nz k' nrm sq dl
        = RoesslerSRK2E f (.GColumns gs) y0 tspan IJm (some w) (some a) nz k' nrm sq dl := by
    intro k'
    have hca := check_args_ok_matrix f g gs y0 tspan w a hgrid hd0 hf hshape hw ha
    have hcb := check_args_ok_columns f g gs y0 tspan w a hgrid hf hshape hrel hw ha
    simp only [RoesslerSRK2E, hca, hcb]
    congr 2
    congr 1
    apply List.foldl_ext
    intro st n hn
    rw [← srk2Step_eq f g gs y0.data.length tspan w a nz nrm sq hshape hrel st.2 n]
  exact ⟨main k, by simp only [itoSRI2E]; exact main k,
    by simp only [stratSRS2E]; exact main 1⟩

/-- Witness for C8: a concrete one-channel system where the matrix convention
and the column-list convention produce identical results. -/
theorem sdeint_C8_witness :
    RoesslerSRK2E (fun _ _ => [0]) (.GMatrix (fun _ _ => [[2]])) ⟨[1], .float64⟩
        [0, 1] (fun w _ => (w, [])) (some [[3]]) (some [[[4]]]) false 1 nrm1
        (fun q => q) (fun _ _ _ => [])
      = RoesslerSRK2E (fun _ _ => [0]) (.GColumns [fun _ _ => [2]]) ⟨[1], .float64⟩
        [0, 1] (fun w _ => (w, [])) (some [[3]]) (some [[[4]]]) false 1 nrm1
        (fun q => q) (fun _ _ _ => []) := by
  exact (sdeint_C8 (fun _ _ => [0]) (fun _ _ => [[2]]) [fun _ _ => [2]]
    ⟨[1], .float64⟩ [0, 1] (fun w _ => (w, [])) [[3]] [[[4]]] false 1 nrm1
    (fun q => q) (fun _ _ _ => [])
    (by norm_num [checkGrid, npDiff, npMinE, npMaxE, npIsClose, min_def, max_def])
    (by simp)
    rfl
    (fun y t => ⟨rfl, by intro r hr; simp at hr; subst hr; rfl⟩)
    (by
      intro k0 hk0 y t
      have hz : k0 = 0 := Nat.lt_one_iff.mp hk0
      subst hz
      rfl)
    rfl rfl).1
